import Mathlib

/-!
Verification development for a Phillips Hue MCP adapter.

The development embeds, as pure Lean functions, the name-addressing and
command-issuing logic of `PhillipsHueService` (hue-service), the request
construction of `LightClient` / `GroupedLightClient` (hue-api-client), the
MCP tool handlers (server entry point), and the credential file handling.
Bridge state is passed explicitly: each operation receives the list of
resources the bridge would return for the fetch it performs, and returns
the list of update (PUT) requests it issues together with its outcome.

Modelling conventions:
  - JavaScript strings are Lean `String`; character-level operations
    (`toLowerCase`, ordering) are modelled on the underlying `List Char`
    restricted to ASCII case mapping, matching the data of this adapter.
  - `String.prototype.localeCompare` (no locale argument) is modelled by
    the ICU root collation restricted to ASCII: a primary pass compares
    the case-folded strings by code point; on a primary tie the case
    weights decide, lowercase before uppercase.
  - `Array.prototype.sort` with a consistent comparator is a stable
    ascending sort (ES2019); any stable sort computes the same output, so
    it is modelled by insertion sort.
  - JavaScript numbers occurring in request bodies are modelled as `Int`.
  - Fallible operations return `Except` / are paired with the request
    trace; thrown `Error` values are modelled by an error type carrying
    the message the code builds.
-/

/-! ## Character and locale ordering model -/

/-- ASCII case folding of the characters of a string, the model of
`s.toLowerCase()` on the ASCII names this adapter handles. -/
def lowerData (s : String) : List Char :=
  s.data.map Char.toLower

/-- Case weight of a character under the ICU root collation: lowercase
(and caseless characters) weigh 0, ASCII uppercase weighs 1, so that on a
primary tie lowercase sorts before uppercase. -/
def caseWeight (c : Char) : Nat :=
  if c.isUpper then 1 else 0

/-- Case weights of the characters of a string. -/
def caseWeights (s : String) : List Nat :=
  s.data.map caseWeight

/-- Model of `a.localeCompare(b) <= 0` under the ICU root collation
restricted to ASCII: compare the case-folded character lists by code
point; on a tie compare the case-weight lists, lowercase first. -/
def localeLe (a b : String) : Bool :=
  decide (lowerData a < lowerData b ∨
    (lowerData a = lowerData b ∧ caseWeights a ≤ caseWeights b))

/-- The ordering relation induced by the `localeCompare` comparator. -/
def localeOrder (a b : String) : Prop :=
  localeLe a b = true

instance : DecidableRel localeOrder :=
  fun _ _ => instDecidableEqBool _ _

/-- Ascending lexicographic (code-point) order on strings: the order the
specification refers to by "ascending lexicographic order". -/
def lexAscending (names : List String) : Prop :=
  List.Sorted (fun a b : String => a.data ≤ b.data) names

/-! ## Bridge resource data model -/

/-- A member-service reference of a room resource: the `rid` / `rtype`
pair of an entry of `room.services`. -/
structure ServiceRef where
  rid : String
  rtype : String
deriving DecidableEq, Repr

/-- A light resource as fetched from the bridge: its id and its
`metadata.name`, absent when the bridge returns no display name. -/
structure Light where
  id : String
  metadataName : Option String
deriving DecidableEq, Repr

/-- A room resource as fetched from the bridge: its id, its optional
`metadata.name`, and its optional `services` array. -/
structure Room where
  id : String
  metadataName : Option String
  services : Option (List ServiceRef)
deriving DecidableEq, Repr

/-! ## Resource client request model (hue-api-client) -/

/-- Body of an update (PUT) request as built by the light and grouped
light clients: the `on.on` flag and the optional `dimming.brightness`
field. -/
structure UpdateBody where
  onOn : Bool
  dimming : Option Int
deriving DecidableEq, Repr

/-- An update (PUT) request against `{endpoint}/{id}` with a JSON body. -/
structure UpdateRequest where
  endpoint : String
  id : String
  body : UpdateBody
deriving DecidableEq, Repr

/-- Model of `LightClient.turnOn(id, brightness?)`: one update request on
`/resource/light` setting `on.on` true, with `dimming.brightness` exactly
when a brightness was supplied. -/
def LightClient.turnOn (id : String) (brightness : Option Int) : UpdateRequest :=
  { endpoint := "/resource/light", id := id,
    body := { onOn := true, dimming := brightness } }

/-- Model of `LightClient.turnOff(id)`: one update request on `/resource/light`
setting `on.on` false, with no dimming field. -/
def LightClient.turnOff (id : String) : UpdateRequest :=
  { endpoint := "/resource/light", id := id,
    body := { onOn := false, dimming := none } }

/-- Model of `GroupedLightClient.turnOn(id, brightness?)`: one update request on
`/resource/grouped_light` setting `on.on` true, with `dimming.brightness`
exactly when a brightness was supplied. -/
def GroupedLightClient.turnOn (id : String) (brightness : Option Int) : UpdateRequest :=
  { endpoint := "/resource/grouped_light", id := id,
    body := { onOn := true, dimming := brightness } }

/-- Model of `GroupedLightClient.turnOff(id)`: one update request on
`/resource/grouped_light` setting `on.on` false, with no dimming field. -/
def GroupedLightClient.turnOff (id : String) : UpdateRequest :=
  { endpoint := "/resource/grouped_light", id := id,
    body := { onOn := false, dimming := none } }

/-! ## Control service (PhillipsHueService) -/

/-- The errors the control service throws, carrying the message text the
code builds. `notFound` models the `not found` lookup failures and
`noGroupedLight` the missing grouped-light-service failure. -/
inductive SvcError where
  | notFound (message : String)
  | noGroupedLight (message : String)
deriving DecidableEq, Repr

/-- The message carried by a service error. -/
def SvcError.message : SvcError → String
  | .notFound m => m
  | .noGroupedLight m => m

/-- Model of `findLightByName`: fetch all lights, return the first whose
`metadata?.name` strictly equals the query (a light without a display
name never matches), else throw the `not found` error. -/
def findLightByName (lights : List Light) (lightName : String) :
    Except SvcError Light :=
  match lights.find? (fun l => decide (l.metadataName = some lightName)) with
  | some l => .ok l
  | none => .error (.notFound ("Light with name '" ++ lightName ++ "' not found"))

/-- Model of `findRoomByName`: fetch all rooms, return the first whose
`metadata?.name?.toLowerCase()` equals the lowercased query (a room
without a display name never matches), else throw the `not found`
error. -/
def findRoomByName (rooms : List Room) (roomName : String) :
    Except SvcError Room :=
  match rooms.find? (fun r => decide (r.metadataName.map lowerData = some (lowerData roomName))) with
  | some r => .ok r
  | none => .error (.notFound ("Room with name '" ++ roomName ++ "' not found"))

/-- The name `listAllLights` shows for a light:
`l.metadata?.name || "Light " + l.id` — JavaScript `||` also replaces an
empty display name by the synthetic one. -/
def lightDisplayName (l : Light) : String :=
  match l.metadataName with
  | some n => if n = "" then "Light " ++ l.id else n
  | none => "Light " ++ l.id

/-- The name `listAllRooms` shows for a room:
`r.metadata?.name || "Room " + r.id`. -/
def roomDisplayName (r : Room) : String :=
  match r.metadataName with
  | some n => if n = "" then "Room " ++ r.id else n
  | none => "Room " ++ r.id

/-- Model of `listAllLights`: map the fetched lights to display names and sort with
the `localeCompare` comparator (stable ascending sort, modelled by
insertion sort). -/
def listAllLights (lights : List Light) : List String :=
  List.insertionSort localeOrder (lights.map lightDisplayName)

/-- Model of `listAllRooms`: map the fetched rooms to display names and sort with
the `localeCompare` comparator. -/
def listAllRooms (rooms : List Room) : List String :=
  List.insertionSort localeOrder (rooms.map roomDisplayName)

/-- Model of `turnLightOn(lightName, brightness)` (the TS default for brightness is
100): resolve the light by name, then issue exactly one
`light.turnOn(light.id, brightness)` update. Returns the update requests
issued together with the outcome. -/
def turnLightOn (lights : List Light) (lightName : String) (brightness : Int) :
    List UpdateRequest × Except SvcError Unit :=
  match findLightByName lights lightName with
  | .error e => ([], .error e)
  | .ok light => ([LightClient.turnOn light.id (some brightness)], .ok ())

/-- Model of `turnLightOff(lightName)`: resolve the light by name, then issue
exactly one `light.turnOff(light.id)` update. -/
def turnLightOff (lights : List Light) (lightName : String) :
    List UpdateRequest × Except SvcError Unit :=
  match findLightByName lights lightName with
  | .error e => ([], .error e)
  | .ok light => ([LightClient.turnOff light.id], .ok ())

/-- The grouped-light member lookup of the room operations:
`room.services?.find(s => s.rtype === 'grouped_light')`, with the
subsequent `?.rid` truthiness check (absent services array, no match, or
an empty rid all fail). -/
def groupedLightRid (room : Room) : Option String :=
  match (room.services.getD []).find? (fun s => decide (s.rtype = "grouped_light")) with
  | none => none
  | some svc => if svc.rid = "" then none else some svc.rid

/-- Model of `turnOnRoomLights(roomName, brightness)` (TS default 100): resolve the
room by name, locate its grouped-light service, then issue exactly one
`groupedLight.turnOn(rid, brightness)` update; throw the
`No grouped light service` error (issuing no update) when the room has
none. -/
def turnOnRoomLights (rooms : List Room) (roomName : String) (brightness : Int) :
    List UpdateRequest × Except SvcError Unit :=
  match findRoomByName rooms roomName with
  | .error e => ([], .error e)
  | .ok room =>
    match groupedLightRid room with
    | none =>
      ([], .error (.noGroupedLight
        ("No grouped light service found for room '" ++ roomName ++ "'")))
    | some rid => ([GroupedLightClient.turnOn rid (some brightness)], .ok ())

/-- Model of `turnOffRoomLights(roomName)`: resolve the room by name, locate its
grouped-light service, then issue exactly one `groupedLight.turnOff(rid)`
update; throw the `No grouped light service` error (issuing no update)
when the room has none. -/
def turnOffRoomLights (rooms : List Room) (roomName : String) :
    List UpdateRequest × Except SvcError Unit :=
  match findRoomByName rooms roomName with
  | .error e => ([], .error e)
  | .ok room =>
    match groupedLightRid room with
    | none =>
      ([], .error (.noGroupedLight
        ("No grouped light service found for room '" ++ roomName ++ "'")))
    | some rid => ([GroupedLightClient.turnOff rid], .ok ())

/-! ## MCP tool layer (server entry point) -/

/-- The `turnLightOff` tool handler: call `hueService.turnLightOff(name)`
against the given bridge state and render the response text — the success
text is the literal `Successfully turned on light` message the handler
contains. -/
def turnLightOffTool (lights : List Light) (name : String) : String :=
  match (turnLightOff lights name).2 with
  | .ok _ => "Successfully turned on light: " ++ name
  | .error e => "Failed to turn off light: " ++ e.message

/-! ## Credential store -/

/-- The credential pair persisted in the JSON file. -/
structure HueCredentials where
  username : String
  clientKey : String
deriving DecidableEq, Repr

/-- JSON values as produced by `JSON.parse`. `undefinedVal` is not a JSON value:
it models JavaScript property access on a value lacking the field. -/
inductive Json where
  | null
  | undefinedVal
  | bool (b : Bool)
  | num (n : Int)
  | str (s : String)
  | arr (items : List Json)
  | obj (fields : List (String × Json))

/-- JavaScript property access `v[key]`: the field value on an object
holding the key, `undefined` otherwise. -/
def Json.getField : Json → String → Json
  | .obj fields, key =>
    match fields.find? (fun f => decide (f.1 = key)) with
    | some f => f.2
    | none => .undefinedVal
  | _, _ => .undefinedVal

/-- JavaScript truthiness of a parsed value: `undefined`, `null`, `false`,
`0` and the empty string are falsy; arrays and objects are truthy. -/
def Json.truthy : Json → Bool
  | .null => false
  | .undefinedVal => false
  | .bool b => b
  | .num n => decide (n ≠ 0)
  | .str s => decide (s ≠ "")
  | .arr _ => true
  | .obj _ => true

/-- The content found at the credentials path: the file may be absent
(ENOENT), unreadable (permissions and similar), readable but not
well-formed JSON (`JSON.parse` throws), or parse to a JSON value. -/
inductive FileContent where
  | missing
  | unreadable
  | invalidJson
  | parsed (v : Json)

/-- Model of `readCredentialsFromFile`: read and `JSON.parse` the file inside one
`try`; any read or parse failure is caught and yields `null`. A parsed
document is returned as the credentials exactly when both
`credentials.username` and `credentials.clientKey` are truthy; otherwise
the invalid-credentials branch yields `null`. -/
def readCredentialsFromFile : FileContent → Option Json
  | .missing => none
  | .unreadable => none
  | .invalidJson => none
  | .parsed v =>
    if (v.getField "username").truthy && (v.getField "clientKey").truthy then
      some v
    else
      none

/-- The JSON document `JSON.stringify` produces for a credential pair. -/
def HueCredentials.toJson (c : HueCredentials) : Json :=
  .obj [("username", .str c.username), ("clientKey", .str c.clientKey)]

/-- Model of `saveCredentialsToFile`: write `JSON.stringify(credentials, null, 2)`
to the credentials path. Serialisation is modelled at the JSON value
level (`JSON.parse` of the written text is exactly the written value);
the successful write path is modelled — a write failure is swallowed by
the code and leaves the previous content. -/
def saveCredentialsToFile (c : HueCredentials) : FileContent :=
  .parsed (HueCredentials.toJson c)

/-! ## New-user bootstrap (createNewHueUser) -/

/-- One element of the v1 user-registration response array: an optional
`error` payload (carrying a description) and an optional `success`
payload whose `username` may itself be absent. -/
structure V1Item where
  error : Option String
  success : Option (Option String)
deriving DecidableEq, Repr

/-- The response processing of `createNewHueUser` after the registration
request returns: take `response[0]`; an error payload, a missing or
falsy `success?.username`, or an empty response all throw (the inner
throws are re-wrapped by the surrounding catch, duplicating the
`Failed to create Hue user` prefix); otherwise build the credentials from
`data.success.username`, with `clientKey` set to the same value (in the
v1 API the client key is the username). -/
def createNewHueUser (response : List V1Item) : Except String HueCredentials :=
  match response.head? with
  | none =>
    .error "Failed to create Hue user: Unknown error"
  | some data =>
    match data.error with
    | some description =>
      .error ("Failed to create Hue user: Failed to create Hue user: " ++ description)
    | none =>
      match data.success with
      | none =>
        .error "Failed to create Hue user: Failed to create Hue user: Unexpected response format"
      | some username? =>
        match username? with
        | none =>
          .error "Failed to create Hue user: Failed to create Hue user: Unexpected response format"
        | some username =>
          if username = "" then
            .error "Failed to create Hue user: Failed to create Hue user: Unexpected response format"
          else
            .ok { username := username, clientKey := username }

/-! ## Specification-side definitions

These definitions follow the words of the specification (not the code)
and exist only to state refinement comparisons for the claims that the
code does not satisfy as written. -/

/-- Modelled from the spec: the claimed reading of `findLightByName` —
exact, case-sensitive match against each display name, "fallback
synthetic name `Light {id}` if the bridge returns no display name". The
code version (`findLightByName`) has no such fallback in the lookup. -/
def findLightByNameClaimed (lights : List Light) (lightName : String) :
    Except SvcError Light :=
  match lights.find? (fun l => decide (l.metadataName.getD ("Light " ++ l.id) = lightName)) with
  | some l => .ok l
  | none => .error (.notFound ("Light with name '" ++ lightName ++ "' not found"))

/-! ## Order properties of the localeCompare comparator -/

/-- Unfolding of the comparator relation into its two-level comparison. -/
theorem localeOrder_iff (a b : String) :
    localeOrder a b ↔ (lowerData a < lowerData b ∨
      (lowerData a = lowerData b ∧ caseWeights a ≤ caseWeights b)) := by
  simp [localeOrder, localeLe]

instance : IsTrans String localeOrder where
  trans := by
    intro a b c hab hbc
    rw [localeOrder_iff] at hab hbc ⊢
    rcases hab with h₁ | ⟨e₁, w₁⟩
    · rcases hbc with h₂ | ⟨e₂, _⟩
      · exact Or.inl (lt_trans h₁ h₂)
      · exact Or.inl (e₂ ▸ h₁)
    · rcases hbc with h₂ | ⟨e₂, w₂⟩
      · exact Or.inl (e₁ ▸ h₂)
      · exact Or.inr ⟨e₁.trans e₂, le_trans w₁ w₂⟩

instance : IsTotal String localeOrder where
  total := by
    intro a b
    rw [localeOrder_iff, localeOrder_iff]
    rcases lt_trichotomy (lowerData a) (lowerData b) with h | h | h
    · exact Or.inl (Or.inl h)
    · rcases le_total (caseWeights a) (caseWeights b) with hw | hw
      · exact Or.inl (Or.inr ⟨h, hw⟩)
      · exact Or.inr (Or.inr ⟨h.symm, hw⟩)
    · exact Or.inr (Or.inl h)

/-! ## Claim C1 -/

/-- C1 is false on the code: for a light with no stored display name, the
claimed synthetic-name fallback would make the query `Light 7` succeed,
but `findLightByName` compares only the stored display name and fails
with the not-found error. -/
theorem findLightByName_fallback_counterexample :
    findLightByNameClaimed [{ id := "7", metadataName := none }] "Light 7"
      = .ok { id := "7", metadataName := none }
    ∧ findLightByName [{ id := "7", metadataName := none }] "Light 7"
      = .error (.notFound "Light with name 'Light 7' not found") :=
  ⟨rfl, rfl⟩

/-- C1 (amended): for every fetched light list and query name,
`findLightByName` returns a fetched light whose stored display name
equals the query under exact, case-sensitive comparison — a light whose
display name is missing never matches, no synthetic name is substituted —
returns the matching light whenever it is unique, and fails with the
`NotFoundError` exactly when no stored display name equals the query. -/
theorem findLightByName_exact_case_sensitive (lights : List Light) (lightName : String) :
    (∀ l, findLightByName lights lightName = .ok l →
      l ∈ lights ∧ l.metadataName = some lightName)
    ∧ ((∀ l ∈ lights, l.metadataName ≠ some lightName) ↔
      findLightByName lights lightName =
        .error (.notFound ("Light with name '" ++ lightName ++ "' not found")))
    ∧ (∀ l ∈ lights, l.metadataName = some lightName →
      (∀ l₂ ∈ lights, l₂.metadataName = some lightName → l₂ = l) →
      findLightByName lights lightName = .ok l) := by
  unfold findLightByName
  cases hf : lights.find? (fun l => decide (l.metadataName = some lightName)) with
  | some l₀ =>
    have hmem : l₀ ∈ lights := List.mem_of_find?_eq_some hf
    have hmatch : l₀.metadataName = some lightName := by
      have := List.find?_some hf
      simpa using this
    refine ⟨?_, ?_, ?_⟩
    · intro l h
      cases h
      exact ⟨hmem, hmatch⟩
    · constructor
      · intro hall
        exact absurd hmatch (hall l₀ hmem)
      · intro h
        cases h
    · intro l _ _ huniq
      rw [huniq l₀ hmem hmatch]
  | none =>
    have hall : ∀ l ∈ lights, l.metadataName ≠ some lightName := by
      intro l hl
      have := List.find?_eq_none.mp hf l hl
      simpa using this
    refine ⟨?_, ?_, ?_⟩
    · intro l h
      cases h
    · exact ⟨fun _ => rfl, fun _ => hall⟩
    · intro l hl hname _
      exact absurd hname (hall l hl)

/-- Witness for C1 (amended): a concrete single-light list on which the
lookup succeeds, obtained by applying the amended theorem. -/
theorem findLightByName_exact_case_sensitive_witness :
    findLightByName [{ id := "1", metadataName := some "Desk" }] "Desk"
      = .ok { id := "1", metadataName := some "Desk" }
    ∧ ({ id := "1", metadataName := some "Desk" } : Light)
      ∈ ([{ id := "1", metadataName := some "Desk" }] : List Light) := by
  have h := findLightByName_exact_case_sensitive
    [{ id := "1", metadataName := some "Desk" }] "Desk"
  have hok : findLightByName [{ id := "1", metadataName := some "Desk" }] "Desk"
      = .ok { id := "1", metadataName := some "Desk" } :=
    h.2.2 { id := "1", metadataName := some "Desk" } (by simp) rfl
      (fun l₂ hl₂ _ => by simpa using hl₂)
  exact ⟨hok, (h.1 _ hok).1⟩

/-! ## Claim C2 -/

/-- C2: whenever the underlying `turnLightOff` service call succeeds, the
`turnLightOff` tool handler returns the literal `Successfully turned on
light` message — the reused "on" text — and not a "turned off" message. -/
theorem turnLightOffTool_success_text (lights : List Light) (name : String)
    (h : (turnLightOff lights name).2 = .ok ()) :
    turnLightOffTool lights name = "Successfully turned on light: " ++ name
    ∧ turnLightOffTool lights name ≠ "Successfully turned off light: " ++ name := by
  have htext : turnLightOffTool lights name = "Successfully turned on light: " ++ name := by
    unfold turnLightOffTool
    rw [h]
  refine ⟨htext, ?_⟩
  rw [htext]
  intro hcontra
  have hlen := congrArg String.length hcontra
  rw [String.length_append, String.length_append] at hlen
  have h30 : ("Successfully turned on light: " : String).length = 30 := rfl
  have h31 : ("Successfully turned off light: " : String).length = 31 := rfl
  rw [h30, h31] at hlen
  omega

/-- Witness for C2: a concrete bridge state holding the requested light,
on which the handler succeeds and emits the "on" text. -/
theorem turnLightOffTool_success_text_witness :
    (turnLightOff [{ id := "1", metadataName := some "Desk" }] "Desk").2 = .ok ()
    ∧ turnLightOffTool [{ id := "1", metadataName := some "Desk" }] "Desk"
      = "Successfully turned on light: Desk" := by
  have h : (turnLightOff [{ id := "1", metadataName := some "Desk" }] "Desk").2 = .ok () := rfl
  exact ⟨h, (turnLightOffTool_success_text [{ id := "1", metadataName := some "Desk" }] "Desk" h).1⟩

/-! ## Claim C3 -/

/-- C3 is false on the code: the sort comparator is `localeCompare`, not
the code-point order, so the bridge order `a`, `B` is returned unchanged
even though ascending lexicographic (code-point) order would put `B`
first. -/
theorem listAllLights_not_lexicographic_counterexample :
    listAllLights [{ id := "1", metadataName := some "a" },
      { id := "2", metadataName := some "B" }] = ["a", "B"]
    ∧ ¬ lexAscending ["a", "B"] := by
  refine ⟨rfl, ?_⟩
  unfold lexAscending
  decide

/-- C3 (amended): for every sequence of lights (respectively rooms)
returned by the bridge, in any order, `listAllLights` (respectively
`listAllRooms`) returns exactly the display names, sorted ascending with
respect to the `localeCompare` ordering — which coincides with
lexicographic order on names of uniform case but differs from it on
mixed-case names. -/
theorem listAll_sorted_by_localeCompare (lights : List Light) (rooms : List Room) :
    (List.Sorted localeOrder (listAllLights lights)
      ∧ (listAllLights lights).Perm (lights.map lightDisplayName))
    ∧ (List.Sorted localeOrder (listAllRooms rooms)
      ∧ (listAllRooms rooms).Perm (rooms.map roomDisplayName)) :=
  ⟨⟨List.sorted_insertionSort localeOrder (lights.map lightDisplayName),
    List.perm_insertionSort localeOrder (lights.map lightDisplayName)⟩,
   ⟨List.sorted_insertionSort localeOrder (rooms.map roomDisplayName),
    List.perm_insertionSort localeOrder (rooms.map roomDisplayName)⟩⟩

/-! ## Claim C4 -/

/-- C4: `findRoomByName` succeeds exactly when some fetched room has a
stored display name equal to the query ignoring letter case (both sides
lowercased), and any failure is the `NotFoundError`. -/
theorem findRoomByName_case_insensitive (rooms : List Room) (roomName : String) :
    ((∃ r, findRoomByName rooms roomName = .ok r) ↔
      ∃ r ∈ rooms, ∃ n, r.metadataName = some n ∧ lowerData n = lowerData roomName)
    ∧ (∀ e, findRoomByName rooms roomName = .error e →
      e = .notFound ("Room with name '" ++ roomName ++ "' not found")) := by
  unfold findRoomByName
  cases hf : rooms.find? (fun r => decide (r.metadataName.map lowerData = some (lowerData roomName))) with
  | some r₀ =>
    have hmem : r₀ ∈ rooms := List.mem_of_find?_eq_some hf
    have hmatch : r₀.metadataName.map lowerData = some (lowerData roomName) := by
      have := List.find?_some hf
      simpa using this
    refine ⟨?_, ?_⟩
    · constructor
      · intro _
        obtain ⟨n, hn, hlow⟩ := Option.map_eq_some'.mp hmatch
        exact ⟨r₀, hmem, n, hn, hlow⟩
      · intro _
        exact ⟨r₀, rfl⟩
    · intro e he
      cases he
  | none =>
    have hall : ∀ r ∈ rooms, r.metadataName.map lowerData ≠ some (lowerData roomName) := by
      intro r hr
      have := List.find?_eq_none.mp hf r hr
      simpa using this
    refine ⟨?_, ?_⟩
    · constructor
      · intro ⟨r, hr⟩
        cases hr
      · intro ⟨r, hr, n, hn, hlow⟩
        exact absurd (by rw [hn]; simpa using hlow) (hall r hr)
    · intro e he
      cases he
      rfl

/-- Witness for C4: a room stored as `Kitchen` is found by the query
`KITCHEN`, by the success direction of the theorem; the failure direction
is exercised on the empty room list. -/
theorem findRoomByName_case_insensitive_witness :
    (∃ r, findRoomByName [{ id := "r1", metadataName := some "Kitchen", services := none }] "KITCHEN" = .ok r)
    ∧ SvcError.notFound "Room with name 'x' not found"
      = .notFound "Room with name 'x' not found" := by
  refine ⟨?_, ?_⟩
  · exact (findRoomByName_case_insensitive
      [{ id := "r1", metadataName := some "Kitchen", services := none }] "KITCHEN").1.mpr
      ⟨{ id := "r1", metadataName := some "Kitchen", services := none }, by simp,
        "Kitchen", rfl, by decide⟩
  · exact (findRoomByName_case_insensitive ([] : List Room) "x").2
      (.notFound "Room with name 'x' not found") rfl

/-! ## Claim C5 -/

/-- C5: for every light resolved by name, `turnLightOn` issues exactly
one update request, on the light endpoint for the resolved id, whose body
sets power on and carries brightness `b`; `turnLightOff` issues exactly
one update request setting power off whose body has no brightness
field. -/
theorem turnLight_single_update_request (lights : List Light) (lightName : String)
    (b : Int) (l : Light) (h : findLightByName lights lightName = .ok l) :
    turnLightOn lights lightName b =
      ([{ endpoint := "/resource/light", id := l.id,
          body := { onOn := true, dimming := some b } }], .ok ())
    ∧ turnLightOff lights lightName =
      ([{ endpoint := "/resource/light", id := l.id,
          body := { onOn := false, dimming := none } }], .ok ()) := by
  unfold turnLightOn turnLightOff LightClient.turnOn LightClient.turnOff
  rw [h]
  exact ⟨rfl, rfl⟩

/-- Witness for C5: the concrete scenario of the specification — a light
named `Kitchen`, brightness 40. -/
theorem turnLight_single_update_request_witness :
    turnLightOn [{ id := "abc1", metadataName := some "Kitchen" }] "Kitchen" 40 =
      ([{ endpoint := "/resource/light", id := "abc1",
          body := { onOn := true, dimming := some 40 } }], .ok ())
    ∧ turnLightOff [{ id := "abc1", metadataName := some "Kitchen" }] "Kitchen" =
      ([{ endpoint := "/resource/light", id := "abc1",
          body := { onOn := false, dimming := none } }], .ok ()) :=
  turnLight_single_update_request [{ id := "abc1", metadataName := some "Kitchen" }]
    "Kitchen" 40 { id := "abc1", metadataName := some "Kitchen" } rfl

/-! ## Claim C6 -/

/-- C6 is false on the code: saving a credentials value whose username is
the empty string and loading it back yields `none`, not a value equal to
the saved credentials, because the loader rejects any document whose
`username` or `clientKey` field is falsy — and the empty string is
falsy. -/
theorem credentials_roundtrip_counterexample :
    readCredentialsFromFile (saveCredentialsToFile { username := "", clientKey := "k" })
      = none := rfl

/-- C6 (amended): for every credentials value whose username and client
key are both nonempty, saving it and loading from the same path yields
exactly the saved document, which determines the credentials value
uniquely. -/
theorem credentials_roundtrip (c : HueCredentials)
    (hu : c.username ≠ "") (hk : c.clientKey ≠ "") :
    readCredentialsFromFile (saveCredentialsToFile c) = some c.toJson
    ∧ (∀ c₂ : HueCredentials, c₂.toJson = c.toJson → c₂ = c) := by
  constructor
  · simp [saveCredentialsToFile, readCredentialsFromFile, HueCredentials.toJson,
      Json.getField, Json.truthy, List.find?, hu, hk]
  · intro c₂ h
    cases c₂
    cases c
    simpa [HueCredentials.toJson] using h

/-- Witness for C6 (amended): a concrete nonempty credential pair
round-trips, by the amended theorem. -/
theorem credentials_roundtrip_witness :
    readCredentialsFromFile (saveCredentialsToFile { username := "u1", clientKey := "k1" })
      = some (HueCredentials.toJson { username := "u1", clientKey := "k1" }) :=
  (credentials_roundtrip { username := "u1", clientKey := "k1" }
    (by decide) (by decide)).1

/-! ## Claim C7 -/

/-- C7: loading credentials from a path where the file is missing, or
exists but is not well-formed JSON, returns `none` rather than raising an
error. -/
theorem readCredentials_missing_or_malformed (fc : FileContent)
    (h : fc = .missing ∨ fc = .invalidJson) :
    readCredentialsFromFile fc = none := by
  rcases h with h | h <;> subst h <;> rfl

/-- Witness for C7: both file conditions, instantiated concretely through
the theorem. -/
theorem readCredentials_missing_or_malformed_witness :
    readCredentialsFromFile .missing = none
    ∧ readCredentialsFromFile .invalidJson = none :=
  ⟨readCredentials_missing_or_malformed .missing (Or.inl rfl),
   readCredentials_missing_or_malformed .invalidJson (Or.inr rfl)⟩

/-! ## Claim C8 -/

/-- C8: for every room resolved by name whose member services contain no
grouped-light reference, `turnOnRoomLights` and `turnOffRoomLights` fail
with the `NoGroupedLightError` and issue zero update requests. -/
theorem turnRoomLights_no_grouped_light (rooms : List Room) (roomName : String)
    (b : Int) (room : Room) (h : findRoomByName rooms roomName = .ok room)
    (hng : ∀ s ∈ room.services.getD [], s.rtype ≠ "grouped_light") :
    turnOnRoomLights rooms roomName b =
      ([], .error (.noGroupedLight
        ("No grouped light service found for room '" ++ roomName ++ "'")))
    ∧ turnOffRoomLights rooms roomName =
      ([], .error (.noGroupedLight
        ("No grouped light service found for room '" ++ roomName ++ "'"))) := by
  have hrid : groupedLightRid room = none := by
    unfold groupedLightRid
    have hfind : (room.services.getD []).find? (fun s => decide (s.rtype = "grouped_light")) = none := by
      rw [List.find?_eq_none]
      intro s hs
      simpa using hng s hs
    rw [hfind]
  unfold turnOnRoomLights turnOffRoomLights
  rw [h]
  simp [hrid]

/-- Witness for C8: the specification scenario — a room named `Office`
whose only member service is a device reference. -/
theorem turnRoomLights_no_grouped_light_witness :
    turnOnRoomLights
      [{ id := "r1", metadataName := some "Office",
         services := some [{ rid := "d1", rtype := "device" }] }] "Office" 100 =
      ([], .error (.noGroupedLight "No grouped light service found for room 'Office'"))
    ∧ turnOffRoomLights
      [{ id := "r1", metadataName := some "Office",
         services := some [{ rid := "d1", rtype := "device" }] }] "Office" =
      ([], .error (.noGroupedLight "No grouped light service found for room 'Office'")) :=
  turnRoomLights_no_grouped_light
    [{ id := "r1", metadataName := some "Office",
       services := some [{ rid := "d1", rtype := "device" }] }] "Office" 100
    { id := "r1", metadataName := some "Office",
      services := some [{ rid := "d1", rtype := "device" }] }
    rfl (by decide)

/-! ## Claim C9 -/

/-- C9: when the query name matches no light (respectively no room,
ignoring case) in the fetched list, all four turn-on/turn-off operations
fail with the `NotFoundError` and issue zero update requests. -/
theorem turn_operations_not_found (lights : List Light) (rooms : List Room)
    (name : String) (b : Int)
    (hl : ∀ l ∈ lights, l.metadataName ≠ some name)
    (hr : ∀ r ∈ rooms, ∀ n, r.metadataName = some n → lowerData n ≠ lowerData name) :
    turnLightOn lights name b =
      ([], .error (.notFound ("Light with name '" ++ name ++ "' not found")))
    ∧ turnLightOff lights name =
      ([], .error (.notFound ("Light with name '" ++ name ++ "' not found")))
    ∧ turnOnRoomLights rooms name b =
      ([], .error (.notFound ("Room with name '" ++ name ++ "' not found")))
    ∧ turnOffRoomLights rooms name =
      ([], .error (.notFound ("Room with name '" ++ name ++ "' not found"))) := by
  have hfl : findLightByName lights name =
      .error (.notFound ("Light with name '" ++ name ++ "' not found")) := by
    unfold findLightByName
    have hfind : lights.find? (fun l => decide (l.metadataName = some name)) = none := by
      rw [List.find?_eq_none]
      intro l hlmem
      simpa using hl l hlmem
    rw [hfind]
  have hfr : findRoomByName rooms name =
      .error (.notFound ("Room with name '" ++ name ++ "' not found")) := by
    unfold findRoomByName
    have hfind : rooms.find? (fun r => decide (r.metadataName.map lowerData = some (lowerData name))) = none := by
      rw [List.find?_eq_none]
      intro r hrmem
      simp only [decide_eq_true_eq, Option.map_eq_some']
      rintro ⟨n, hn, hlow⟩
      exact hr r hrmem n hn hlow
    rw [hfind]
  unfold turnLightOn turnLightOff turnOnRoomLights turnOffRoomLights
  rw [hfl, hfr]
  exact ⟨rfl, rfl, rfl, rfl⟩

/-- Witness for C9: nonempty bridge state in which the queried name
`Garage` matches nothing. -/
theorem turn_operations_not_found_witness :
    turnLightOn [{ id := "1", metadataName := some "Desk" }] "Garage" 100 =
      ([], .error (.notFound "Light with name 'Garage' not found"))
    ∧ turnOnRoomLights [{ id := "r1", metadataName := some "Den", services := none }] "Garage" 100 =
      ([], .error (.notFound "Room with name 'Garage' not found")) := by
  have h := turn_operations_not_found [{ id := "1", metadataName := some "Desk" }]
    [{ id := "r1", metadataName := some "Den", services := none }] "Garage" 100
    (by decide) (by decide)
  exact ⟨h.1, h.2.2.1⟩

/-! ## Claim C10 -/

/-- C10: every credentials value produced by the new-user bootstrap path
has its client key equal to its username — the code copies the registered
username into both fields. -/
theorem createNewHueUser_clientKey_eq_username (response : List V1Item)
    (c : HueCredentials) (h : createNewHueUser response = .ok c) :
    c.clientKey = c.username := by
  cases response with
  | nil => simp [createNewHueUser] at h
  | cons data rest =>
    obtain ⟨err, succ⟩ := data
    cases err with
    | some d => simp [createNewHueUser] at h
    | none =>
      cases succ with
      | none => simp [createNewHueUser] at h
      | some username? =>
        cases username? with
        | none => simp [createNewHueUser] at h
        | some u =>
          by_cases hu : u = ""
          · simp [createNewHueUser, hu] at h
          · simp [createNewHueUser, hu] at h
            rw [← h]

/-- Witness for C10: a concrete successful registration response. -/
theorem createNewHueUser_clientKey_eq_username_witness :
    ({ username := "abc", clientKey := "abc" } : HueCredentials).clientKey
      = ({ username := "abc", clientKey := "abc" } : HueCredentials).username :=
  createNewHueUser_clientKey_eq_username [{ error := none, success := some (some "abc") }]
    { username := "abc", clientKey := "abc" } rfl
